import Mathlib

/-!
Verification of the simulated job-processing pipeline of the GenSyn
playground page (a React component).  The session state and the pipeline
operations (addLog, trainModel, processJob, startSimulation, togglePause,
queue refill) are embedded shallowly: the React useState fields become one
record `SimState`, each mutation site becomes a function
`SimState → SimState`, and the asynchronous timer chain becomes explicit
sequencing.  Numbers are embedded as exact rationals; a small binary64
rounding model `fl64` is added for the claim about float arithmetic.
Environmental inputs (wall-clock timestamps, random draws, the loss values
produced by the TensorFlow training call, the pause-flag value observed at
each training wake-up) are passed as explicit parameters.
-/

/-- Device profile from the static gpus catalog: name, power draw in
watts, speed multiplier (source lines 9-15). -/
structure Gpu where
  name : String
  power : ℕ
  speed : ℚ

/-- Job descriptor from the static jobs catalog: id, display name, nominal
duration in ms, base reward (source lines 17-22). -/
structure Job where
  id : ℕ
  name : String
  duration : ℕ
  reward : ℚ

/-- Static device catalog (source lines 9-15). -/
def gpus : List Gpu :=
  [⟨"RTX 4090", 450, 9/10⟩,
   ⟨"H100", 700, 12/10⟩,
   ⟨"A100", 400, 8/10⟩,
   ⟨"RTX 3090", 350, 7/10⟩,
   ⟨"M2 MacBook", 30, 3/10⟩]

/-- Static job catalog (source lines 17-22). -/
def jobs : List Job :=
  [⟨1, "Train ResNet-18 on CIFAR-10", 5000, 12/10⟩,
   ⟨2, "Fine-tune Llama-7B", 8000, 25/10⟩,
   ⟨3, "Stable Diffusion Proof", 3000, 8/10⟩,
   ⟨4, "GPT-2 Scratch Train", 6000, 18/10⟩]

/-- Placeholder job used as the default value of list indexing. -/
def defaultJob : Job := ⟨0, "", 0, 0⟩

/-- The three log categories declared by the TypeScript union type of the
logs state (source line 26). -/
def logCategories : List String := ["info", "success", "bid"]

/-- A log entry.  The wall-clock timestamp is an environmental input
irrelevant to every claim and is elided; the category is kept as the
runtime string value, because the source passes a value outside the
declared union through an `as any` cast (source line 86). -/
structure LogEntry where
  msg : String
  type : String

/-- Session state: the useState fields of the component (source lines
25-34).  The model field is `none` until the init effect finishes building
the TensorFlow model. -/
structure SimState where
  selectedGpu : Gpu
  logs : List LogEntry
  isRunning : Bool
  earnings : ℚ
  progress : ℚ
  jobQueue : List Job
  currentJob : ℕ
  showConfetti : Bool
  isPaused : Bool
  model : Option Unit

/-- Initial component state (source lines 25-34): first GPU selected,
empty log, not running, zero earnings and progress, queue seeded with the
first two catalog jobs, model not yet initialized. -/
def initState : SimState :=
  { selectedGpu := gpus.getD 0 ⟨"", 0, 0⟩
    logs := []
    isRunning := false
    earnings := 0
    progress := 0
    jobQueue := jobs.take 2
    currentJob := 0
    showConfetti := false
    isPaused := false
    model := none }

/-- The function addLog (source lines 53-57): appends an entry whose
message is prefixed with the upper-cased category in brackets.  The
scrolling of the log panel is presentation and elided. -/
def addLog (msg : String) (type : String) (s : SimState) : SimState :=
  { s with logs := s.logs ++ [⟨"[" ++ type.toUpper ++ "] " ++ msg, type⟩] }

/-- Synthetic accuracy figure of training step `i` (zero-based) out of
`steps`: `50 + (steps - i) * 5` (source line 85, whose comment reads
Fake acc ramp-up). -/
def accAt (steps i : ℕ) : ℚ :=
  50 + ((steps : ℚ) - (i : ℚ)) * 5

/-- Per-step log message (source line 86).  The toFixed decimal formatting
of loss and accuracy is elided: the exact rationals are rendered instead,
which preserves which values are logged. -/
def stepMsg (steps i : ℕ) (loss : ℚ) : String :=
  "Step " ++ toString (i + 1) ++ "/" ++ toString steps ++ " -> Loss: " ++
    toString loss ++ ", Acc: " ++ toString (accAt steps i) ++ "%"

/-- One wake-up of the training-loop body (source lines 78-89) at loop
index `i`, observing the pause-flag value `paused` at that wake-up and the
loss value `loss` returned by the training call.  Returns the next loop
index and state: when paused, the `i--; continue` cancels the `i++` of the
loop, so index and state are unchanged; otherwise the step is logged (with
the category string `train`) and progress is set to `(i / steps) * 100`. -/
def trainIter (steps i : ℕ) (loss : ℚ) (paused : Bool) (s : SimState) :
    ℕ × SimState :=
  if paused then (i, s)
  else
    (i + 1,
      { addLog (stepMsg steps i loss) "train" s with
          progress := ((i : ℚ) / (steps : ℚ)) * 100 })

/-- The training loop of trainModel (source lines 78-89), driven by the
schedule `sched` of pause-flag values observed at successive wake-ups and
the sequence `losses` of loss values; it exits once the loop index reaches
`steps`. -/
def trainLoop (steps : ℕ) (losses : List ℚ) :
    List Bool → ℕ → SimState → ℕ × SimState
  | [], i, s => (i, s)
  | p :: rest, i, s =>
      if steps ≤ i then (i, s)
      else
        let r := trainIter steps i (losses.getD i 0) p s
        trainLoop steps losses rest r.1 r.2

/-- The function trainModel (source lines 73-92): returns immediately when
the model has not been initialized, otherwise runs the training loop from
index 0.  Tensor allocation and disposal have no observable state effect
and are elided. -/
def trainModel (steps : ℕ) (losses : List ℚ) (sched : List Bool)
    (s : SimState) : SimState :=
  match s.model with
  | none => s
  | some _ => (trainLoop steps losses sched 0 s).2

/-- JavaScript Array.prototype.slice for nonnegative integer arguments:
elements from index `a` up to (excluding) `b`; empty when `a ≥ b`. -/
def jsSlice (l : List Job) (a b : ℕ) : List Job :=
  (l.take b).drop a

/-- The queue refill (source line 97): appends
`jobs.slice(r1 * jobs.length, r2 * jobs.length + 1)` where `r1` and `r2`
are two independent Math.random draws in `[0, 1)`; the fractional slice
arguments are truncated by JavaScript (floor, as they are nonnegative). -/
def refill (r1 r2 : ℚ) (s : SimState) : SimState :=
  { s with
      jobQueue := s.jobQueue ++
        jsSlice jobs (⌊r1 * (jobs.length : ℚ)⌋).toNat
          (⌊r2 * (jobs.length : ℚ) + 1⌋).toNat }

/-- The reward-settlement stage (source lines 110-119): computes
`reward = job.reward * selectedGpu.speed`, adds it to the earnings, logs a
success message, shows the confetti, advances the job index and resets
progress to zero. -/
def settle (job : Job) (s : SimState) : SimState :=
  let reward := job.reward * s.selectedGpu.speed
  let s1 := { s with earnings := s.earnings + reward }
  let s2 := addLog ("Proof accepted! +" ++ toString reward ++ " $SY earned")
    "success" s1
  { s2 with
      showConfetti := true
      currentJob := s2.currentJob + 1
      progress := 0 }

/-- The function processJob (source lines 94-121) with the timer chain
sequenced explicitly.  When the current index is at or past the queue
length, it logs and (after the 2000 ms delay) refills; otherwise it logs
the bid, logs the training start, runs the 10-step training, logs the
proof generation and (after the 1500 ms delay) settles the reward.  The
sound effects are pure presentation; the confetti-off timer is modelled as
a separate step. -/
def processJob (losses : List ℚ) (sched : List Bool) (r1 r2 : ℚ)
    (s : SimState) : SimState :=
  if s.jobQueue.length ≤ s.currentJob then
    refill r1 r2 (addLog "Queue empty. Fetching more jobs..." "info" s)
  else
    let job := s.jobQueue.getD s.currentJob defaultJob
    let s1 := addLog ("Processing job " ++ toString (s.currentJob + 1) ++
      ": " ++ job.name) "bid" s
    let s2 := addLog "Training model..." "info" s1
    let s3 := trainModel 10 losses sched s2
    let s4 := addLog "Generating proof..." "info" s3
    settle job s4

/-- The function startSimulation (source lines 123-131): sets the running
flag, zeroes earnings, clears the log, zeroes the job index and progress,
then logs the start message.  The pause flag is not touched.  The call to
processJob that follows is modelled separately (all its effects sit behind
timers). -/
def startSimulation (s : SimState) : SimState :=
  addLog ("Node started on " ++ s.selectedGpu.name ++ " (" ++
      toString s.selectedGpu.power ++ "W)") "info"
    { s with
        isRunning := true
        earnings := 0
        logs := []
        currentJob := 0
        progress := 0 }

/-- The function togglePause (source lines 133-136): flips the pause flag
and logs a message chosen from the value of the flag before the flip. -/
def togglePause (s : SimState) : SimState :=
  addLog (if s.isPaused then "Node resumed" else "Node paused") "info"
    { s with isPaused := !s.isPaused }

/-- The atomic state mutations the pipeline can perform, as a step
relation: simulation start, pause toggle, a plain log append, one training
wake-up (the loop guarantees that the index is below the step count), a
reward settlement, a queue refill, and the confetti-off timer. -/
inductive Step : SimState → SimState → Prop
  | start (s : SimState) : Step s (startSimulation s)
  | pause (s : SimState) : Step s (togglePause s)
  | log (m t : String) (s : SimState) : Step s (addLog m t s)
  | train (steps i : ℕ) (loss : ℚ) (p : Bool) (s : SimState)
      (h : i < steps) : Step s (trainIter steps i loss p s).2
  | settled (j : Job) (s : SimState) : Step s (settle j s)
  | refilled (r1 r2 : ℚ) (s : SimState) : Step s (refill r1 r2 s)
  | confettiOff (s : SimState) : Step s { s with showConfetti := false }

/-- Round a rational to the nearest integer, ties to even (the IEEE 754
default rounding). -/
def roundTiesEven (q : ℚ) : ℤ :=
  let f := ⌊q⌋
  let r := q - (f : ℚ)
  if r < 1/2 then f
  else if 1/2 < r then f + 1
  else if f % 2 = 0 then f else f + 1

/-- Round a rational to the grid of multiples of `1 / den`, ties to even. -/
def flOnGrid (den : ℕ) (q : ℚ) : ℚ :=
  (roundTiesEven (q * (den : ℚ)) : ℚ) / (den : ℚ)

/-- Number of doublings (bounded by fuel) needed to bring a positive
rational below one into `[1/2, 1)`: the result `k` means the input lies in
the binade `[2 ^ -(k+1), 2 ^ -k)`. -/
def flExp : ℕ → ℚ → ℕ
  | 0, _ => 0
  | fuel + 1, q => if 1/2 ≤ q then 0 else flExp fuel (2 * q) + 1

/-- Binary64 (JavaScript number) rounding of a positive rational below
one: round to 53 significant bits, that is to the grid `2 ^ -(53 + k)` on
the binade `[2 ^ -(k+1), 2 ^ -k)`.  Sufficient for the catalog constants
and the reward at issue, all of which lie strictly between 0 and 1. -/
def fl64 (q : ℚ) : ℚ :=
  flOnGrid (2 ^ (53 + flExp 1100 q)) q

lemma flExp_ge (fuel : ℕ) (q : ℚ) (h : 1/2 ≤ q) : flExp (fuel + 1) q = 0 := by
  simp only [flExp]
  rw [if_pos h]

lemma flExp_lt (fuel : ℕ) (q : ℚ) (h : q < 1/2) :
    flExp (fuel + 1) q = flExp fuel (2 * q) + 1 := by
  simp only [flExp]
  rw [if_neg (not_le.mpr h)]

/-- C1: for every device and every job, the settlement stage computes the
reward as the base reward of the job times the speed multiplier of the
selected device and adds exactly that amount to the accumulated total. -/
theorem settle_adds_exact_reward (j : Job) (s : SimState) :
    (settle j s).earnings = s.earnings + j.reward * s.selectedGpu.speed := by
  simp [settle, addLog]

/-- C2: evaluation of the refill at a failing random draw.  With the first
draw at 3/4 (slice start index 3) and the second at 0 (slice end index 1),
the refill scheduled by processJob on an exhausted queue appends zero jobs:
the slice is empty, so the queue is unchanged, refuting the claim that a
refill always appends at least one job descriptor. -/
theorem refill_can_append_zero_jobs :
    (processJob [] [] (3/4) 0 { initState with currentJob := 2 }).jobQueue =
      ({ initState with currentJob := 2 } : SimState).jobQueue ∧
    jsSlice jobs 3 1 = [] := by
  constructor
  · norm_num [processJob, initState, jobs, refill, jsSlice, addLog]
  · simp [jsSlice, jobs]

/-- C3 counterexample: in a full unpaused 10-step training run, the
progress written by the last step is 90, not 100: the code writes
`(i / steps) * 100` with the zero-based index `i`, not
`(completed / steps) * 100`. -/
theorem trainModel_last_step_progress_below_100 :
    (trainModel 10 (List.replicate 10 0) (List.replicate 10 false)
        { initState with model := some () }).progress = 90 ∧
    ¬ (trainModel 10 (List.replicate 10 0) (List.replicate 10 false)
        { initState with model := some () }).progress = 100 := by
  constructor
  · norm_num [trainModel, trainLoop, trainIter, List.replicate]
  · norm_num [trainModel, trainLoop, trainIter, List.replicate]

/-- C3 amended: after each completed (non-paused) training step, progress
is updated to `((completed - 1) / total) * 100`, where the zero-based loop
index `i` equals the number of previously completed steps; in particular
after the last of the fixed 10 steps progress equals 90, not 100. -/
theorem trainIter_progress_offbyone :
    (∀ (steps i : ℕ) (loss : ℚ) (s : SimState),
      (trainIter steps i loss false s).2.progress =
        ((i : ℚ) / (steps : ℚ)) * 100) ∧
    (trainModel 10 (List.replicate 10 0) (List.replicate 10 false)
        { initState with model := some () }).progress = 90 := by
  constructor
  · intro steps i loss s
    simp [trainIter]
  · norm_num [trainModel, trainLoop, trainIter, List.replicate]

/-- C4: evaluation of the synthetic accuracy at a failing input.  With the
fixed 10-step run, step 1 (index 0) logs accuracy 100 and step 2 (index 1)
logs accuracy 95: the later step logs a strictly smaller value, refuting
the claim (and the source comment announcing a ramp-up) that accuracy
increases as remaining steps decrease. -/
theorem accAt_decreases_within_run :
    accAt 10 0 = 100 ∧ accAt 10 1 = 95 ∧ accAt 10 1 < accAt 10 0 := by
  norm_num [accAt]

/-- C5 counterexample: starting a run from a state whose pause flag is set
leaves the pause flag set, refuting the claim that startSimulation sets
the paused flag to false regardless of its previous value. -/
theorem startSimulation_preserves_paused_flag :
    (startSimulation { initState with isPaused := true }).isPaused = true := by
  simp [startSimulation, addLog]

/-- C5 amended: starting a run sets the running flag, zeroes the
accumulated reward, progress and current job index, and clears the log
(then immediately appends the single start message); the paused flag is
left unchanged. -/
theorem startSimulation_resets_baseline (s : SimState) :
    (startSimulation s).isRunning = true ∧
    (startSimulation s).earnings = 0 ∧
    (startSimulation s).progress = 0 ∧
    (startSimulation s).currentJob = 0 ∧
    (startSimulation s).logs.length = 1 ∧
    (startSimulation s).isPaused = s.isPaused := by
  simp [startSimulation, addLog]

/-- C6: a training-loop wake-up observed under pause leaves the loop index
and the whole state (hence progress and the log) unchanged, any number of
consecutive paused wake-ups leave the loop where it was, and a wake-up
observed unpaused advances the index by exactly one. -/
theorem paused_iteration_no_advance (steps : ℕ) (losses : List ℚ)
    (n i : ℕ) (loss : ℚ) (s : SimState) :
    trainLoop steps losses (List.replicate n true) i s = (i, s) ∧
    trainIter steps i loss true s = (i, s) ∧
    (trainIter steps i loss false s).1 = i + 1 := by
  refine ⟨?_, by simp [trainIter], by simp [trainIter]⟩
  induction n with
  | zero => simp [trainLoop]
  | succ k ih =>
      rw [List.replicate_succ]
      simp only [trainLoop, trainIter, if_pos rfl]
      split
      · rfl
      · exact ih

/-- C7: every atomic pipeline step preserves the bounds 0 and 100 on
progress, starting a run and settling a job both write progress 0, and
plain log appends never change progress, so progress is 0 when every
training stage of a run begins. -/
theorem progress_within_range :
    (∀ s s' : SimState, Step s s' → 0 ≤ s.progress → s.progress ≤ 100 →
      0 ≤ s'.progress ∧ s'.progress ≤ 100) ∧
    (∀ s : SimState, (startSimulation s).progress = 0) ∧
    (∀ (j : Job) (s : SimState), (settle j s).progress = 0) ∧
    (∀ (m t : String) (s : SimState), (addLog m t s).progress = s.progress) := by
  refine ⟨?_, ?_, ?_, ?_⟩
  · intro s s' hstep h0 h100
    cases hstep with
    | start s => simp [startSimulation, addLog]
    | pause s => simpa [togglePause, addLog] using ⟨h0, h100⟩
    | log m t s => simpa [addLog] using ⟨h0, h100⟩
    | train steps i loss p s h =>
        cases p with
        | true => simpa [trainIter] using ⟨h0, h100⟩
        | false =>
            have hp : (trainIter steps i loss false s).2.progress =
                ((i : ℚ) / (steps : ℚ)) * 100 := by
              simp [trainIter]
            have hs0 : (0 : ℚ) < (steps : ℚ) := by
              exact_mod_cast Nat.lt_of_le_of_lt (Nat.zero_le i) h
            have hi : (i : ℚ) ≤ (steps : ℚ) := by
              exact_mod_cast Nat.le_of_lt h
            rw [hp]
            constructor
            · positivity
            · calc ((i : ℚ) / (steps : ℚ)) * 100
                  ≤ 1 * 100 := by
                    apply mul_le_mul_of_nonneg_right _ (by norm_num)
                    exact div_le_one_of_le₀ hi (le_of_lt hs0)
                _ = 100 := by norm_num
    | settled j s => simp [settle, addLog]
    | refilled r1 r2 s => simpa [refill] using ⟨h0, h100⟩
    | confettiOff s => exact ⟨h0, h100⟩
  · intro s
    simp [startSimulation, addLog]
  · intro j s
    simp [settle, addLog]
  · intro m t s
    simp [addLog]

/-- C7 witness: a concrete step (a log append from the initial state)
keeps progress within the bounds. -/
theorem progress_within_range_witness :
    0 ≤ (addLog "x" "info" initState).progress ∧
    (addLog "x" "info" initState).progress ≤ 100 :=
  progress_within_range.1 initState (addLog "x" "info" initState)
    (Step.log "x" "info" initState)
    (by norm_num [initState]) (by norm_num [initState])

/-- C8: settling the job named Stable Diffusion Proof (base reward 0.8) on
the device named M2 MacBook (speed 0.3) yields exactly 0.24: the exact
rational product is 24/100, and the same holds in binary64 arithmetic,
where the rounded product of the doubles nearest 0.8 and 0.3 equals the
double nearest 0.24. -/
theorem m2_stable_diffusion_settles_024 :
    (settle (jobs.getD 2 defaultJob)
        { initState with selectedGpu := gpus.getD 4 ⟨"", 0, 0⟩ }).earnings =
      24/100 ∧
    fl64 (fl64 (4/5) * fl64 (3/10)) = fl64 (6/25) := by
  constructor
  · norm_num [settle, addLog, initState, jobs, gpus, defaultJob]
  · norm_num [fl64, flOnGrid, roundTiesEven, flExp_ge, flExp_lt]

/-- C9: evaluation of a training-step log append.  The entry appended by
an unpaused training wake-up carries the category string train, which is
outside the three categories declared by the TypeScript union type of the
log state (the source forces it through an `as any` cast), refuting the
claim that every appended entry has a category among info, success, bid. -/
theorem train_step_log_category_undeclared :
    ((trainIter 10 0 0 false initState).2.logs.getLast?.map LogEntry.type) =
      some "train" ∧
    "train" ∉ logCategories := by
  constructor
  · simp [trainIter, addLog, initState]
  · decide

/-- C10: when the model is still null, trainModel is a no-op (no steps, no
log entries, progress untouched), and the rest of the job pipeline still
proceeds: processJob still appends its four stage log entries and settles
the full reward of the current job, resetting progress to zero. -/
theorem trainModel_none_noop (losses : List ℚ) (sched : List Bool)
    (r1 r2 : ℚ) (s : SimState) (hm : s.model = none) :
    (∀ steps : ℕ, trainModel steps losses sched s = s) ∧
    ∀ h : s.currentJob < s.jobQueue.length,
      (processJob losses sched r1 r2 s).earnings =
        s.earnings +
          (s.jobQueue.getD s.currentJob defaultJob).reward *
            s.selectedGpu.speed ∧
      (processJob losses sched r1 r2 s).logs.length = s.logs.length + 4 ∧
      (processJob losses sched r1 r2 s).progress = 0 := by
  have hnoop : ∀ (steps : ℕ) (t : SimState), t.model = none →
      trainModel steps losses sched t = t := by
    intro steps t ht
    simp [trainModel, ht]
  refine ⟨fun steps => hnoop steps s hm, ?_⟩
  intro h
  have hguard : ¬ s.jobQueue.length ≤ s.currentJob := not_le.mpr h
  simp only [processJob, if_neg hguard]
  rw [hnoop 10 _ (by simp [addLog, hm])]
  refine ⟨by simp [settle, addLog], ?_, by simp [settle, addLog]⟩
  simp [settle, addLog]

/-- C10 witness: from the initial state (model not yet initialized, two
queued jobs, index zero), the null-model training is a no-op and the
pipeline still settles the first catalog job. -/
theorem trainModel_none_noop_witness :
    trainModel 10 [] [] initState = initState ∧
    (processJob [] [] 0 0 initState).earnings =
      initState.earnings +
        (initState.jobQueue.getD initState.currentJob defaultJob).reward *
          initState.selectedGpu.speed := by
  have H := trainModel_none_noop [] [] 0 0 initState rfl
  exact ⟨H.1 10, (H.2 (by simp [initState, jobs])).1⟩
